import Mathlib

/-!
Shallow embedding of the robot-salary calculator (`workdays.py`, `main.py`,
`exceptions.py`).

Times of day are modelled as seconds since midnight (`ℕ`); break times as
minutes since midnight (`ℕ`), matching the `"HHMM"` strings / naive
`datetime(1900, 1, 1, h, m)` values the source compares.  Minute totals are
rationals (the source divides elapsed seconds by 60).  Python's
`timedelta.seconds` field, floor division `//`, and `%` are modelled with
`Int.emod` / `Int.fdiv`.
-/

namespace RobotSalary

/-- Python `timedelta(seconds := d).seconds`: the normalized seconds field of
a timedelta, always in `[0, 86400)` (negative totals borrow from `days`). -/
def pySeconds (d : ℤ) : ℤ := Int.emod d 86400

/-- Python floor division `//` on integers. -/
def pyFloorDiv (a b : ℤ) : ℤ := Int.fdiv a b

/-- Python `int()` truncation toward zero of a rational. -/
def pyTrunc (q : ℚ) : ℤ := if 0 ≤ q then q.floor else -(-q).floor

/-- Python `round(x, 2)` (round-half-to-even at two decimal places), as the
source applies to each day's pay. -/
def pyRound2 (q : ℚ) : ℚ :=
  let x := q * 100
  let n := x.floor
  let r := x - (n : ℚ)
  let k := if r < 1 / 2 then n else if 1 / 2 < r then n + 1
           else if Int.emod n 2 = 0 then n else n + 1
  (k : ℚ) / 100

/-- Errors the computation can raise: `InvalidBreakTimeError` (carrying the
offending `time_of_last_break` as hour and minute), and the `RobotWorkHalfDay`
"unexpected error" fallback branch in which `day_minutes` is never assigned. -/
inductive CalcErr where
  | invalidBreakTime : ℕ → ℕ → CalcErr
  | unexpectedBranch : CalcErr
deriving DecidableEq

instance {ε α : Type} [DecidableEq ε] [DecidableEq α] : DecidableEq (Except ε α) := fun
  | .error a, .error b => decidable_of_iff (a = b) (by simp)
  | .error _, .ok _ => isFalse (by simp)
  | .ok _, .error _ => isFalse (by simp)
  | .ok a, .ok b => decidable_of_iff (a = b) (by simp)

/-- The per-hour break state machine shared by every `get_break_timings`
variant in `workdays.py`: `hours` is the list of clock hours the loop scans,
`isBrk` mirrors `isBreak`, `hsb` mirrors `hours_since_break` (an `ℤ` because
the full-day variant can initialize it negative) and `bht` mirrors
`break_hours_taken`.  The returned list holds the clock hours at which a
break is emitted (the source formats them with the reference minute; we
append the minute in the callers). -/
def breakSim (wd bd : ℕ) : List ℕ → Bool → ℤ → ℕ → List ℕ
  | [], _, _, _ => []
  | h :: rest, isBrk, hsb, bht =>
    if isBrk then
      if bht + 1 = bd then breakSim wd bd rest false hsb 0
      else breakSim wd bd rest true hsb (bht + 1)
    else if hsb = (wd : ℤ) then h :: breakSim wd bd rest true 1 bht
    else breakSim wd bd rest isBrk (hsb + 1) bht

/-- `RobotWorkDay.get_break_timings`: validates the carried
`time_of_last_break` (hour `lbh`, minute `lbm`) against the latest legal
break time (midnight of the next day minus break and work durations), then
runs the state machine over hours `0..23` with
`hours_since_break = 24 - (last_break_hour + break_duration)`.
Break times are returned as minutes of day. -/
def breakTimingsFull (wd bd lbh lbm : ℕ) : Except CalcErr (List ℕ) :=
  if (60 * (lbh : ℤ) + lbm) < 1440 - 60 * ((bd : ℤ) + wd) then
    .error (.invalidBreakTime lbh lbm)
  else
    .ok ((breakSim wd bd (List.range 24) false (24 - ((lbh : ℤ) + bd)) 0).map
      (fun h => 60 * h + lbm))

/-- The `"HHMM"` rendering of a seconds-of-day value, as minutes of day
(seconds are dropped, exactly like `strftime("%H%M")`). -/
def sentinelHM (sec : ℕ) : ℕ := 60 * (sec / 3600) + sec % 3600 / 60

/-- `RobotShiftStartDay.get_break_timings`: if the shift start is on or
before the latest possible break time (next midnight minus break and work
durations) simulate from `hours_since_break = 0` over the hours from the
shift-start hour to midnight; otherwise yield only the shift-start sentinel. -/
def breakTimingsSS (wd bd ssSec : ℕ) : List ℕ :=
  let ssh := ssSec / 3600
  let ssm := ssSec % 3600 / 60
  if (ssSec : ℤ) ≤ 86400 - 3600 * ((bd : ℤ) + wd) then
    (breakSim wd bd ((List.range (24 - ssh)).map (· + ssh)) false 0 0).map
      (fun h => 60 * h + ssm)
  else [60 * ssh + ssm]

/-- `RobotWorkHalfDay.get_break_timings`: if the shift is strictly longer
than the work duration, simulate over `work_hours.seconds // 3600` hours
offset by the shift-start hour; otherwise yield only the shift-start
sentinel.  `ssSec`/`seSec` are the shift start/end seconds of day (the
source only ever builds half days with both ends on one date). -/
def breakTimingsHalf (wd bd ssSec seSec : ℕ) : List ℕ :=
  let ssh := ssSec / 3600
  let ssm := ssSec % 3600 / 60
  if 3600 * (wd : ℤ) < (seSec : ℤ) - ssSec then
    (breakSim wd bd
        ((List.range ((pySeconds ((seSec : ℤ) - ssSec)).toNat / 3600)).map (· + ssh))
        false 0 0).map (fun h => 60 * h + ssm)
  else [60 * ssh + ssm]

/-- The half-open day-bucket test used by `RobotWorkDay`,
`RobotShiftStartDay` and `RobotShiftEndDay`:
`day_start <= break_time < day_end - break_duration`. -/
def inDayHalfOpen (bd ds de b : ℕ) : Bool :=
  decide ((ds : ℤ) ≤ 60 * b ∧ 60 * (b : ℤ) < (de : ℤ) - 3600 * bd)

/-- The closed day-bucket test used by `RobotWorkHalfDay`:
`day_start <= break_time <= day_end - break_duration`. -/
def inDayClosed (bd ds de b : ℕ) : Bool :=
  decide ((ds : ℤ) ≤ 60 * b ∧ 60 * (b : ℤ) ≤ (de : ℤ) - 3600 * bd)

/-- `RobotWorkDay.get_minutes_worked` applies no filter to the break stream. -/
def noSkip : ℕ → Bool := fun _ => false

/-- The sentinel filter of `RobotShiftStartDay`/`RobotWorkHalfDay`:
skip a break equal to `datetime(1900, 1, 1, shift_start_hour,
shift_start_minute)`. -/
def skipSentinel (ssSec : ℕ) : ℕ → Bool := fun b => b == sentinelHM ssSec

/-- The cutoff filter of `RobotShiftEndDay`: skip a break strictly later
than `shift_end_HHMM - break_duration` (shift-end seconds are dropped). -/
def skipAfterCutoff (bd seSec : ℕ) : ℕ → Bool := fun b =>
  decide (3600 * ((seSec / 3600 : ℕ) : ℤ) + 60 * ((seSec % 3600 / 60 : ℕ) : ℤ)
    - 3600 * (bd : ℤ) < 60 * b)

/-- The break-subtraction loop common to all `get_minutes_worked` variants:
walk the break stream, skipping filtered entries, and subtract `sub`
(`break_duration_in_hours * 60`) from the day bucket when the bucket test
holds, else from the night bucket. -/
def applyBreaks (sub : ℚ) (skip inDay : ℕ → Bool) : List ℕ → ℚ × ℚ → ℚ × ℚ
  | [], dn => dn
  | b :: rest, dn =>
    if skip b then applyBreaks sub skip inDay rest dn
    else if inDay b then applyBreaks sub skip inDay rest (dn.1 - sub, dn.2)
    else applyBreaks sub skip inDay rest (dn.1, dn.2 - sub)

/-- `(self.day_end - self.day_start).seconds / 60`. -/
def dayLength (ds de : ℕ) : ℚ := ((pySeconds ((de : ℤ) - ds)) : ℚ) / 60

/-- Pre-subtraction minutes of a FULL day (`workdays.py` lines 217-218):
`day_minutes` is the day-window length, `night_minutes` the rest of 1440. -/
def preFull (ds de : ℕ) : ℚ × ℚ :=
  (dayLength ds de, 24 * 60 - dayLength ds de)

/-- Pre-subtraction `day_minutes` of a SHIFT_START day (`workdays.py` lines
443-450): full window before it opens, shift-start to window close inside
it, zero after it closes. -/
def preSSDay (ds de ssSec : ℕ) : ℚ :=
  if ssSec < ds then dayLength ds de
  else if ssSec < de then ((pySeconds ((de : ℤ) - ssSec)) : ℚ) / 60
  else 0

/-- Pre-subtraction minutes of a SHIFT_START day (`workdays.py` lines
443-455), from the shift-start seconds of day `ssSec`:
`night_minutes = (24 - h)*60 - m - s/60 - day_minutes`. -/
def preSS (ds de ssSec : ℕ) : ℚ × ℚ :=
  (preSSDay ds de ssSec,
   ((24 : ℚ) - ((ssSec / 3600 : ℕ) : ℚ)) * 60 - ((ssSec % 3600 / 60 : ℕ) : ℚ)
     - ((ssSec % 60 : ℕ) : ℚ) / 60 - preSSDay ds de ssSec)

/-- Pre-subtraction `day_minutes` of a SHIFT_END day (`workdays.py` lines
624-631): zero before the window opens, window open to shift-end inside it,
full window after it closes. -/
def preSEDay (ds de seSec : ℕ) : ℚ :=
  if seSec < ds then 0
  else if seSec < de then ((pySeconds ((seSec : ℤ) - ds)) : ℚ) / 60
  else dayLength ds de

/-- Pre-subtraction minutes of a SHIFT_END day (`workdays.py` lines
624-636), from the shift-end seconds of day `seSec`:
`night_minutes = h*60 + m + s/60 - day_minutes`. -/
def preSE (ds de seSec : ℕ) : ℚ × ℚ :=
  (preSEDay ds de seSec,
   ((seSec / 3600 : ℕ) : ℚ) * 60 + ((seSec % 3600 / 60 : ℕ) : ℚ)
     + ((seSec % 60 : ℕ) : ℚ) / 60 - preSEDay ds de seSec)

/-- The six-way `day_minutes` case split of
`RobotWorkHalfDay.get_minutes_worked` (lines 871-895); `none` is the
"theres literally no way this would occur" fallback in which `day_minutes`
is never assigned. -/
def confinedPreDay (ds de ssSec seSec : ℕ) : Option ℚ :=
  if de ≤ ssSec ∨ seSec ≤ ds then some 0
  else if ssSec < ds ∧ de < seSec then some (dayLength ds de)
  else if ds < ssSec ∧ seSec < de then some (((pySeconds ((seSec : ℤ) - ssSec)) : ℚ) / 60)
  else if ds < ssSec ∧ de < seSec then some (((pySeconds ((de : ℤ) - ssSec)) : ℚ) / 60)
  else if ssSec < ds ∧ seSec < de then some (((pySeconds ((seSec : ℤ) - ds)) : ℚ) / 60)
  else none

/-- Pre-subtraction minutes of a SHIFT_CONFINED day:
`night_minutes = (shift_end - shift_start).seconds / 60 - day_minutes`. -/
def confinedPre (ds de ssSec seSec : ℕ) : Option (ℚ × ℚ) :=
  (confinedPreDay ds de ssSec seSec).map
    (fun d => (d, ((pySeconds ((seSec : ℤ) - ssSec)) : ℚ) / 60 - d))

/-- `RobotWorkDay.get_minutes_worked` on a given break stream. -/
def minutesWorkedFull (bd ds de : ℕ) (breaks : List ℕ) : ℚ × ℚ :=
  applyBreaks ((bd : ℚ) * 60) noSkip (inDayHalfOpen bd ds de) breaks (preFull ds de)

/-- `RobotShiftStartDay.get_minutes_worked` on a given break stream. -/
def minutesWorkedSS (bd ds de ssSec : ℕ) (breaks : List ℕ) : ℚ × ℚ :=
  applyBreaks ((bd : ℚ) * 60) (skipSentinel ssSec) (inDayHalfOpen bd ds de) breaks
    (preSS ds de ssSec)

/-- `RobotShiftEndDay.get_minutes_worked` on a given break stream. -/
def minutesWorkedSE (bd ds de seSec : ℕ) (breaks : List ℕ) : ℚ × ℚ :=
  applyBreaks ((bd : ℚ) * 60) (skipAfterCutoff bd seSec) (inDayHalfOpen bd ds de) breaks
    (preSE ds de seSec)

/-- `RobotWorkHalfDay.get_minutes_worked` on a given break stream (note the
closed-interval bucket test). -/
def minutesWorkedConfined (bd ds de ssSec seSec : ℕ) (breaks : List ℕ) :
    Option (ℚ × ℚ) :=
  (confinedPre ds de ssSec seSec).map
    (applyBreaks ((bd : ℚ) * 60) (skipSentinel ssSec) (inDayClosed bd ds de) breaks)

/-- `RobotWorkDay.calculate_pay`: rate-weighted minutes, rounded to two
decimal places. -/
def calculate_pay (dayRate nightRate : ℤ) (dayMin nightMin : ℚ) : ℚ :=
  pyRound2 (dayMin * (dayRate : ℚ) + nightMin * (nightRate : ℚ))

/-- Days since the Unix epoch of a proleptic Gregorian date (the date part
of a Python `datetime`). -/
def daysFromCivil (y m d : ℤ) : ℤ :=
  let yy := y - (if m ≤ 2 then 1 else 0)
  let era := Int.fdiv yy 400
  let yoe := yy - era * 400
  let mp := Int.emod (m + 9) 12
  let doy := Int.fdiv (153 * mp + 2) 5 + d - 1
  let doe := yoe * 365 + Int.fdiv yoe 4 - Int.fdiv yoe 100 + doy
  era * 146097 + doe - 719468

/-- Python `datetime.weekday()`: Monday is 0; the epoch day was a Thursday. -/
def pyWeekday (days : ℤ) : ℕ := (Int.emod (days + 3) 7).toNat

/-- A naive Python `datetime`: a calendar date plus seconds of day. -/
structure PyDateTime where
  year : ℤ
  month : ℤ
  day : ℤ
  sec : ℕ
deriving DecidableEq

/-- The date part as days since the epoch. -/
def PyDateTime.civil (t : PyDateTime) : ℤ := daysFromCivil t.year t.month t.day

/-- Total seconds of `e - s` (the unnormalized timedelta). -/
def deltaSeconds (s e : PyDateTime) : ℤ :=
  (e.civil - s.civil) * 86400 + ((e.sec : ℤ) - (s.sec : ℤ))

/-- The `roboRate` configuration: a day window (seconds of day) and integer
day/night rates per minute, for the standard (weekday) and extra (weekend)
schedules. -/
structure RoboRate where
  standardStart : ℕ
  standardEnd : ℕ
  standardDayRate : ℤ
  standardNightRate : ℤ
  extraStart : ℕ
  extraEnd : ℕ
  extraDayRate : ℤ
  extraNightRate : ℤ

/-- `main.parse_roboRate_values`: weekend schedule when the weekday index
exceeds 4, else the weekday schedule. -/
def parse_roboRate_values (r : RoboRate) (day : ℕ) : ℕ × ℕ × ℤ × ℤ :=
  if 4 < day then (r.extraStart, r.extraEnd, r.extraDayRate, r.extraNightRate)
  else (r.standardStart, r.standardEnd, r.standardDayRate, r.standardNightRate)

/-- Day-count method 1 of `calculate_total_pay`: raw day-of-month
subtraction. -/
def dayCountMethod1 (s e : PyDateTime) : ℤ := e.day - s.day

/-- Day-count method 2: `(shift_end - shift_start).days`. -/
def dayCountMethod2 (s e : PyDateTime) : ℤ := pyFloorDiv (deltaSeconds s e) 86400

/-- Day-count method 3: `(shift_end - shift_start).seconds` converted to
days, rounded up. -/
def dayCountMethod3 (s e : PyDateTime) : ℤ :=
  let secs := pySeconds (deltaSeconds s e)
  pyFloorDiv secs 86400 + (if 0 < Int.emod secs 86400 then 1 else 0)

/-- `shift_duration_days`: the successive-maximum chain over the three
day-count methods. -/
def shiftDurationDays (s e : PyDateTime) : ℤ :=
  let d1 := dayCountMethod1 s e
  let d2 := if d1 < dayCountMethod2 s e then dayCountMethod2 s e else d1
  if d2 < dayCountMethod3 s e then dayCountMethod3 s e else d2

/-- The number of loop iterations of `calculate_total_pay`
(`range(shift_duration_days + 1)`). -/
def segmentsProcessed (s e : PyDateTime) : ℕ := (shiftDurationDays s e + 1).toNat

/-- `strftime("%H%M")` of a seconds-of-day value as an (hour, minute) pair. -/
def hmOfSec (sec : ℕ) : ℕ × ℕ := (sec / 3600, sec % 3600 / 60)

/-- The `time_of_last_break` update of `calculate_total_pay` lines 187-188:
the start of the day's last emitted break, or the previous value when the
day emitted none. -/
def lastBreakHM (breaks : List ℕ) (tolb : ℕ × ℕ) : ℕ × ℕ :=
  match breaks.getLast? with
  | some b => (b / 60, b % 60)
  | none => tolb

/-- One SHIFT_START segment: break timings, minutes worked, carried
`time_of_last_break` update and pay. -/
def processStartDay (wd bd ds de ssSec : ℕ) (dr nr : ℤ) (tolb : ℕ × ℕ) :
    (ℕ × ℕ) × ℚ :=
  let breaks := breakTimingsSS wd bd ssSec
  let mins := minutesWorkedSS bd ds de ssSec breaks
  (lastBreakHM breaks tolb, calculate_pay dr nr mins.1 mins.2)

/-- One FULL segment; the generator's `InvalidBreakTimeError` propagates. -/
def processFullDay (wd bd ds de : ℕ) (dr nr : ℤ) (tolb : ℕ × ℕ) :
    Except CalcErr ((ℕ × ℕ) × ℚ) :=
  match breakTimingsFull wd bd tolb.1 tolb.2 with
  | .error x => .error x
  | .ok breaks =>
    let mins := minutesWorkedFull bd ds de breaks
    .ok (lastBreakHM breaks tolb, calculate_pay dr nr mins.1 mins.2)

/-- One SHIFT_END segment (reuses the FULL-day generator); the generator's
`InvalidBreakTimeError` propagates. -/
def processEndDay (wd bd ds de seSec : ℕ) (dr nr : ℤ) (tolb : ℕ × ℕ) :
    Except CalcErr ((ℕ × ℕ) × ℚ) :=
  match breakTimingsFull wd bd tolb.1 tolb.2 with
  | .error x => .error x
  | .ok breaks =>
    let mins := minutesWorkedSE bd ds de seSec breaks
    .ok (lastBreakHM breaks tolb, calculate_pay dr nr mins.1 mins.2)

/-- One iteration of the `calculate_total_pay` day loop: pick the weekday's
rates, dispatch on the segment role (`i == 0` start, `i == n` end, else
full), thread the carried `time_of_last_break` and accumulate pay. -/
def segStep (r : RoboRate) (wd bd : ℕ) (s e : PyDateTime) (n : ℤ)
    (st : (ℕ × ℕ) × ℚ) (i : ℕ) : Except CalcErr ((ℕ × ℕ) × ℚ) :=
  let v := parse_roboRate_values r (pyWeekday (s.civil + i))
  if i = 0 then
    let res := processStartDay wd bd v.1 v.2.1 s.sec v.2.2.1 v.2.2.2 st.1
    .ok (res.1, st.2 + res.2)
  else if (i : ℤ) = n then
    match processEndDay wd bd v.1 v.2.1 e.sec v.2.2.1 v.2.2.2 st.1 with
    | .error x => .error x
    | .ok res => .ok (res.1, st.2 + res.2)
  else
    match processFullDay wd bd v.1 v.2.1 v.2.2.1 v.2.2.2 st.1 with
    | .error x => .error x
    | .ok res => .ok (res.1, st.2 + res.2)

/-- `main.calculate_total_pay`: fold the day loop over
`range(shift_duration_days + 1)` starting from
`time_of_last_break = shift_start.strftime("%H%M")`, then truncate the
accumulated pay to an integer. -/
def calculate_total_pay (r : RoboRate) (wd bd : ℕ) (s e : PyDateTime) :
    Except CalcErr ℤ :=
  ((List.range (segmentsProcessed s e)).foldlM
      (segStep r wd bd s e (shiftDurationDays s e)) (hmOfSec s.sec, (0 : ℚ))).map
    (fun st => pyTrunc st.2)

/-- The carried `time_of_last_break` after the first `k` day-loop
iterations of `calculate_total_pay`. -/
def tolbIntoDay (r : RoboRate) (wd bd : ℕ) (s e : PyDateTime) (k : ℕ) :
    Except CalcErr (ℕ × ℕ) :=
  ((List.range k).foldlM
      (segStep r wd bd s e (shiftDurationDays s e)) (hmOfSec s.sec, (0 : ℚ))).map
    (fun st => st.1)

/-- `main.calculate_half_day_pay`: a single SHIFT_CONFINED segment on the
shift-start's weekday; the unreachable-branch fallback surfaces as an
error. -/
def calculate_half_day_pay (r : RoboRate) (wd bd : ℕ) (s e : PyDateTime) :
    Except CalcErr ℤ :=
  let v := parse_roboRate_values r (pyWeekday s.civil)
  let breaks := breakTimingsHalf wd bd s.sec e.sec
  match minutesWorkedConfined bd v.1 v.2.1 s.sec e.sec breaks with
  | some mins => .ok (pyTrunc (calculate_pay v.2.2.1 v.2.2.2 mins.1 mins.2))
  | none => .error .unexpectedBranch

/-- `main.main`: dispatch on whether the shift starts and ends on the same
calendar date.  No validation of the shift bounds is performed anywhere. -/
def mainValue (r : RoboRate) (wd bd : ℕ) (s e : PyDateTime) : Except CalcErr ℤ :=
  if s.year = e.year ∧ s.month = e.month ∧ s.day = e.day then
    calculate_half_day_pay r wd bd s e
  else calculate_total_pay r wd bd s e

/-- The rate schedule used by the spec's scenarios: day window 07:00-23:00,
day rate 20, night rate 25, identical on weekdays and weekends. -/
def scenarioRate : RoboRate :=
  ⟨25200, 82800, 20, 25, 25200, 82800, 20, 25⟩

/-- The rate schedule of the spec's SHIFT_CONFINED scenario: day window
07:00-23:00, day rate 30, night rate 35, identical on both schedules. -/
def confinedRate : RoboRate :=
  ⟨25200, 82800, 30, 35, 25200, 82800, 30, 35⟩

/-! ### Helper lemmas -/

/-- The break-subtraction fold subtracts `sub` from the day bucket once per
surviving break that passes the bucket test, and from the night bucket once
per surviving break that fails it. -/
theorem applyBreaks_spec (sub : ℚ) (skip inDay : ℕ → Bool) (l : List ℕ) (dn : ℚ × ℚ) :
    applyBreaks sub skip inDay l dn =
      (dn.1 - sub * ((l.filter fun b => !skip b && inDay b).length : ℚ),
       dn.2 - sub * ((l.filter fun b => !skip b && !inDay b).length : ℚ)) := by
  induction l generalizing dn with
  | nil => simp [applyBreaks]
  | cons b rest ih =>
    rcases dn with ⟨d, n⟩
    by_cases hs : skip b
    · simp [applyBreaks, hs, ih]
    · by_cases hd : inDay b
      · simp only [applyBreaks, hs, if_neg, Bool.false_eq_true, ite_false, hd, ite_true, ih,
          List.filter_cons, Bool.not_eq_true']
        simp [hs, hd]
        ring
      · simp only [applyBreaks, hs, Bool.false_eq_true, ite_false, hd, ih, List.filter_cons,
          Bool.not_eq_true']
        simp [hs, hd]
        ring

/-- Seconds of day decompose into hour, minute and second fields. -/
theorem sec_fields (sec : ℕ) :
    3600 * (sec / 3600) + 60 * (sec % 3600 / 60) + sec % 60 = sec := by
  omega

/-- A timedelta of less than one day keeps its seconds unchanged. -/
theorem pySeconds_of_lt {d : ℤ} (h0 : 0 ≤ d) (h1 : d < 86400) : pySeconds d = d :=
  Int.emod_eq_of_lt h0 h1

/-! ### Claims -/

/-- C1 (counterexample).  The claim says every role subtracts a surviving
break from `day_minutes` exactly when it lies in the half-open interval
`[day_start, day_end - break_duration)`.  For a SHIFT_CONFINED segment from
14:00:00 to 23:30:00 against the window 07:00-23:00 with the default
durations, the single surviving break starts at 22:00 (minute 1320), which
is not in `[07:00, 22:00)`; the claim therefore requires it to be deducted
from `night_minutes` (giving `(540, -30)`), but `RobotWorkHalfDay` uses a
closed upper bound and deducts it from `day_minutes`, giving `(480, 30)`. -/
theorem c1_counterexample :
    breakTimingsHalf 8 1 50400 84600 = [1320]
    ∧ ¬ ((25200 : ℤ) ≤ 60 * 1320 ∧ 60 * (1320 : ℤ) < 82800 - 3600 * 1)
    ∧ minutesWorkedConfined 1 25200 82800 50400 84600 [1320] = some (480, 30) := by
  refine ⟨by decide, by decide, by with_unfolding_all rfl⟩

/-- C1 (amended): each surviving break is deducted from `day_minutes`
exactly when it lies in `[day_start, day_end - break_duration)` for the
FULL, SHIFT_START and SHIFT_END roles, but in the closed interval
`[day_start, day_end - break_duration]` for the SHIFT_CONFINED role; all
other surviving breaks are deducted from `night_minutes`, at
`break_duration * 60` minutes each. -/
theorem c1_bucket_rules (bd ds de ssSec seSec : ℕ) (breaks : List ℕ) :
    minutesWorkedFull bd ds de breaks =
      ((preFull ds de).1
          - (bd : ℚ) * 60 * ((breaks.filter fun b => inDayHalfOpen bd ds de b).length : ℚ),
       (preFull ds de).2
          - (bd : ℚ) * 60 * ((breaks.filter fun b => !inDayHalfOpen bd ds de b).length : ℚ))
    ∧ minutesWorkedSS bd ds de ssSec breaks =
      ((preSS ds de ssSec).1 - (bd : ℚ) * 60
          * ((breaks.filter fun b => !skipSentinel ssSec b && inDayHalfOpen bd ds de b).length : ℚ),
       (preSS ds de ssSec).2 - (bd : ℚ) * 60
          * ((breaks.filter fun b => !skipSentinel ssSec b && !inDayHalfOpen bd ds de b).length : ℚ))
    ∧ minutesWorkedSE bd ds de seSec breaks =
      ((preSE ds de seSec).1 - (bd : ℚ) * 60
          * ((breaks.filter fun b => !skipAfterCutoff bd seSec b && inDayHalfOpen bd ds de b).length : ℚ),
       (preSE ds de seSec).2 - (bd : ℚ) * 60
          * ((breaks.filter fun b => !skipAfterCutoff bd seSec b && !inDayHalfOpen bd ds de b).length : ℚ))
    ∧ ∀ p, confinedPre ds de ssSec seSec = some p →
        minutesWorkedConfined bd ds de ssSec seSec breaks =
          some (p.1 - (bd : ℚ) * 60
              * ((breaks.filter fun b => !skipSentinel ssSec b && inDayClosed bd ds de b).length : ℚ),
            p.2 - (bd : ℚ) * 60
              * ((breaks.filter fun b => !skipSentinel ssSec b && !inDayClosed bd ds de b).length : ℚ)) := by
  have hno : (fun b => !noSkip b && inDayHalfOpen bd ds de b) = fun b => inDayHalfOpen bd ds de b := by
    funext b
    simp [noSkip]
  have hno2 : (fun b => !noSkip b && !inDayHalfOpen bd ds de b) = fun b => !inDayHalfOpen bd ds de b := by
    funext b
    simp [noSkip]
  refine ⟨?_, ?_, ?_, ?_⟩
  · rw [minutesWorkedFull, applyBreaks_spec, hno, hno2]
  · rw [minutesWorkedSS, applyBreaks_spec]
  · rw [minutesWorkedSE, applyBreaks_spec]
  · intro p hp
    rw [minutesWorkedConfined, hp]
    show some (applyBreaks ((bd : ℚ) * 60) (skipSentinel ssSec) (inDayClosed bd ds de) breaks p) = _
    rw [applyBreaks_spec]

/-- C1 (witness): the amended bucket rule applied to the SHIFT_CONFINED
counterexample input. -/
theorem c1_witness :
    minutesWorkedConfined 1 25200 82800 50400 84600 [1320] =
      some (((540 : ℚ), (30 : ℚ)).1 - (1 : ℚ) * 60
          * (([1320].filter fun b => !skipSentinel 50400 b && inDayClosed 1 25200 82800 b).length : ℚ),
        ((540 : ℚ), (30 : ℚ)).2 - (1 : ℚ) * 60
          * (([1320].filter fun b => !skipSentinel 50400 b && !inDayClosed 1 25200 82800 b).length : ℚ)) :=
  (c1_bucket_rules 1 25200 82800 50400 84600 [1320]).2.2.2 ((540 : ℚ), (30 : ℚ))
    (by with_unfolding_all rfl)

/-- C2: before break subtraction, `day_minutes + night_minutes` equals 1440
for a FULL day, the minutes from shift start to the following midnight for
SHIFT_START, the minutes from midnight to shift end for SHIFT_END, and the
shift's own length for SHIFT_CONFINED (whenever its case split assigns a
value). -/
theorem c2_pre_break_totals (ds de ssSec seSec : ℕ) :
    (preFull ds de).1 + (preFull ds de).2 = 1440
    ∧ (preSS ds de ssSec).1 + (preSS ds de ssSec).2 = ((86400 : ℚ) - (ssSec : ℚ)) / 60
    ∧ (preSE ds de seSec).1 + (preSE ds de seSec).2 = (seSec : ℚ) / 60
    ∧ (ssSec ≤ seSec → seSec < 86400 →
        ∀ p, confinedPre ds de ssSec seSec = some p →
          p.1 + p.2 = ((seSec : ℚ) - (ssSec : ℚ)) / 60) := by
  have hss : ((ssSec : ℕ) : ℚ) = 3600 * ((ssSec / 3600 : ℕ) : ℚ)
      + 60 * ((ssSec % 3600 / 60 : ℕ) : ℚ) + ((ssSec % 60 : ℕ) : ℚ) := by
    exact_mod_cast congrArg (fun n : ℕ => (n : ℚ)) (sec_fields ssSec).symm
  have hse : ((seSec : ℕ) : ℚ) = 3600 * ((seSec / 3600 : ℕ) : ℚ)
      + 60 * ((seSec % 3600 / 60 : ℕ) : ℚ) + ((seSec % 60 : ℕ) : ℚ) := by
    exact_mod_cast congrArg (fun n : ℕ => (n : ℚ)) (sec_fields seSec).symm
  refine ⟨?_, ?_, ?_, ?_⟩
  · simp only [preFull]
    ring
  · simp only [preSS]
    field_simp
    linarith [hss]
  · simp only [preSE]
    field_simp
    linarith [hse]
  · intro h1 h2 p hp
    rcases hcd : confinedPreDay ds de ssSec seSec with _ | d
    · rw [confinedPre, hcd] at hp
      exact absurd hp (by simp)
    · rw [confinedPre, hcd] at hp
      have hp2 : ((d, ((pySeconds ((seSec : ℤ) - (ssSec : ℤ))) : ℚ) / 60 - d) : ℚ × ℚ) = p :=
        Option.some.inj hp
      have hpy : pySeconds ((seSec : ℤ) - (ssSec : ℤ)) = (seSec : ℤ) - (ssSec : ℤ) := by
        apply pySeconds_of_lt <;> omega
      rw [← hp2]
      simp only [hpy]
      push_cast
      ring

/-- C2 (witness): the totals at the spec's SHIFT_CONFINED scenario
(window 07:00-23:00, shift 03:10:00 to 23:45:00). -/
theorem c2_witness :
    (preFull 25200 82800).1 + (preFull 25200 82800).2 = 1440
    ∧ ((960 : ℚ), (275 : ℚ)).1 + ((960 : ℚ), (275 : ℚ)).2
        = ((85500 : ℚ) - (11400 : ℚ)) / 60 := by
  obtain ⟨h1, _, _, h4⟩ := c2_pre_break_totals 25200 82800 11400 85500
  exact ⟨h1, h4 (by norm_num) (by norm_num) _ (by with_unfolding_all rfl)⟩

/-- C3 (counterexample).  The claim says that with `work_duration = 8`,
`break_duration = 1` and `time_of_last_break = "0000"` the FULL-day
generator emits breaks on a 9-hour cycle starting from hour 0.  In fact
`"0000"` fails the generator's validity check (00:00 is strictly earlier
than the latest legal break time 15:00) and the generator raises
`InvalidBreakTimeError` before emitting anything. -/
theorem c3_counterexample :
    breakTimingsFull 8 1 0 0 = Except.error (CalcErr.invalidBreakTime 0 0) := by
  decide

/-- C3 (amended): with the default durations and
`time_of_last_break = "0000"` the FULL-day generator (which does
initialize `hours_since_break` to `24 - (last_break_hour +
break_duration)`) raises `InvalidBreakTimeError` identifying `"0000"` and
emits no break times, while the segment's `day_minutes + night_minutes`
before break subtraction is still 1440 for the scenario window
07:00-23:00. -/
theorem c3_invalid_default :
    breakTimingsFull 8 1 0 0 = Except.error (CalcErr.invalidBreakTime 0 0)
    ∧ (preFull 25200 82800).1 + (preFull 25200 82800).2 = 1440 := by
  refine ⟨by decide, by with_unfolding_all rfl⟩

/-- C4: the FULL-day generator raises the invalid-break-time error exactly
when the carried `time_of_last_break` is strictly earlier than the latest
legal break time (`break_duration + work_duration` hours walked back from
midnight); when it raises, no break times are produced and the per-day
computation used by the shift loop aborts with an error identifying the
offending value. -/
theorem c4_invalid_break_time (wd bd lbh lbm ds de : ℕ) (dr nr : ℤ) :
    (breakTimingsFull wd bd lbh lbm = Except.error (CalcErr.invalidBreakTime lbh lbm) ↔
      60 * (lbh : ℤ) + lbm < 1440 - 60 * ((bd : ℤ) + wd))
    ∧ (60 * (lbh : ℤ) + lbm < 1440 - 60 * ((bd : ℤ) + wd) →
        processFullDay wd bd ds de dr nr (lbh, lbm) =
          Except.error (CalcErr.invalidBreakTime lbh lbm)) := by
  constructor
  · unfold breakTimingsFull
    split_ifs with h
    · simpa using h
    · simp [h]
  · intro h
    simp [processFullDay, breakTimingsFull, h]

/-- C4 (witness): the default `time_of_last_break` value `"0000"` is
strictly earlier than 15:00 and aborts the day computation. -/
theorem c4_witness :
    processFullDay 8 1 25200 82800 20 25 (0, 0) =
      Except.error (CalcErr.invalidBreakTime 0 0) :=
  (c4_invalid_break_time 8 1 0 0 25200 82800 20 25).2 (by decide)

/-- C5: when the shift start of a SHIFT_START segment is strictly later
than the latest possible break time (next midnight minus break and work
durations), the generator yields exactly the shift-start sentinel, and the
accountant skips it, so the minutes worked equal the pre-subtraction
minutes (zero break minutes are deducted). -/
theorem c5_sentinel_start (wd bd ds de ssSec : ℕ)
    (h : 86400 - 3600 * ((bd : ℤ) + wd) < (ssSec : ℤ)) :
    breakTimingsSS wd bd ssSec = [sentinelHM ssSec]
    ∧ minutesWorkedSS bd ds de ssSec (breakTimingsSS wd bd ssSec) = preSS ds de ssSec := by
  have hng : ¬ ((ssSec : ℤ) ≤ 86400 - 3600 * ((bd : ℤ) + wd)) := by omega
  have h1 : breakTimingsSS wd bd ssSec = [sentinelHM ssSec] := by
    simp [breakTimingsSS, hng, sentinelHM]
  refine ⟨h1, ?_⟩
  rw [h1]
  simp [minutesWorkedSS, applyBreaks, skipSentinel]

/-- C5 (witness): the spec's scenario, a shift start at 2038-01-01T20:15:00
(72900 seconds of day) with the default durations. -/
theorem c5_witness :
    breakTimingsSS 8 1 72900 = [sentinelHM 72900]
    ∧ minutesWorkedSS 1 25200 82800 72900 (breakTimingsSS 8 1 72900) =
        preSS 25200 82800 72900 :=
  c5_sentinel_start 8 1 25200 82800 72900 (by decide)

/-- C6: the number of day-loop iterations of `calculate_total_pay` is one
plus the maximum of the three day-count computations (raw day-of-month
subtraction, the timedelta day field, and the timedelta seconds field
rounded up to whole days). -/
theorem c6_segment_count (s e : PyDateTime)
    (_hne : (s.year, s.month, s.day) ≠ (e.year, e.month, e.day)) :
    (segmentsProcessed s e : ℤ) =
      1 + max (max (dayCountMethod1 s e) (dayCountMethod2 s e)) (dayCountMethod3 s e) := by
  have h3 : 0 ≤ dayCountMethod3 s e := by
    have h0 : 0 ≤ Int.emod (deltaSeconds s e) 86400 := Int.emod_nonneg _ (by norm_num)
    have h1 : 0 ≤ Int.fdiv (Int.emod (deltaSeconds s e) 86400) 86400 :=
      Int.fdiv_nonneg h0 (by norm_num)
    unfold dayCountMethod3 pySeconds pyFloorDiv
    dsimp only
    split_ifs <;> omega
  unfold segmentsProcessed shiftDurationDays
  dsimp only
  simp only [max_def]
  split_ifs <;> omega

/-- C6 (witness): the two-night shift of the split scenario spans three
processed segments. -/
theorem c6_witness :
    (segmentsProcessed ⟨2038, 1, 1, 36000⟩ ⟨2038, 1, 3, 36000⟩ : ℤ) =
      1 + max (max (dayCountMethod1 ⟨2038, 1, 1, 36000⟩ ⟨2038, 1, 3, 36000⟩)
          (dayCountMethod2 ⟨2038, 1, 1, 36000⟩ ⟨2038, 1, 3, 36000⟩))
        (dayCountMethod3 ⟨2038, 1, 1, 36000⟩ ⟨2038, 1, 3, 36000⟩) :=
  c6_segment_count _ _ (by decide)

/-- C7 (counterexample).  The claim says the six-way SHIFT_CONFINED case
split is exhaustive and the fallback unreachable.  A shift starting exactly
at the window opening (07:00:00-20:00:00 against window 07:00-23:00)
satisfies none of the six conditions: the case split returns no
`day_minutes` and the accountant reaches the "unexpected error" fallback. -/
theorem c7_counterexample :
    confinedPreDay 25200 82800 25200 72000 = none
    ∧ minutesWorkedConfined 1 25200 82800 25200 72000
        (breakTimingsHalf 8 1 25200 72000) = none := by
  refine ⟨by with_unfolding_all rfl, by with_unfolding_all rfl⟩

/-- C7 (amended): the fallback branch is reached exactly when the shift
overlaps the window's span (`shift_start < window_close` and
`window_open < shift_end`) while touching a boundary with equality
(`shift_start = window_open` or `shift_end = window_close`); in every
other configuration exactly one of the six branches assigns
`day_minutes`. -/
theorem c7_fallback_iff (ds de ssSec seSec : ℕ) :
    confinedPreDay ds de ssSec seSec = none ↔
      ssSec < de ∧ ds < seSec ∧ (ssSec = ds ∨ seSec = de) := by
  unfold confinedPreDay
  split_ifs with h1 h2 h3 h4 h5 <;> simp <;> omega

/-- C8: the code never rejects invalid shift bounds.  `InvalidShiftError`
is declared in `exceptions.py` but raised nowhere; `main` computes a pay
value even when shift start equals shift end (here
2038-01-01T03:10:00 for both bounds, yielding pay 0) instead of aborting
before segment processing. -/
theorem c8_no_bounds_validation :
    mainValue confinedRate 8 1 ⟨2038, 1, 1, 11400⟩ ⟨2038, 1, 1, 11400⟩ =
      Except.ok 0 := by
  with_unfolding_all rfl

/-- C9 (counterexample).  The claim says both buckets stay nonnegative
after break subtraction for every well-formed segment.  A FULL day with the
well-formed window 00:00:00-23:30:00 and the valid carried break time 20:00
gets breaks at 05:00, 14:00 and 23:00; the 23:00 break lands in the
30-minute night bucket and drives `night_minutes` to -30. -/
theorem c9_counterexample :
    breakTimingsFull 8 1 20 0 = Except.ok [300, 840, 1380]
    ∧ minutesWorkedFull 1 0 84600 [300, 840, 1380] = (1290, -30)
    ∧ (minutesWorkedFull 1 0 84600 [300, 840, 1380]).2 < 0 := by
  have hmw : minutesWorkedFull 1 0 84600 [300, 840, 1380] = (1290, -30) := by
    with_unfolding_all rfl
  refine ⟨by decide, hmw, ?_⟩
  rw [hmw]
  norm_num

/-- C9 (amended): with the default durations, a FULL segment whose
day-window length (in minutes) lies between 180 and 1260 — so that both the
day and the night portion are at least three break-hours long, as with the
spec's 07:00-23:00 window — keeps both buckets nonnegative for every valid
carried break time; in general `night_minutes` can go negative. -/
theorem c9_full_day_nonneg (lbh lbm ds de : ℕ) (l : List ℕ)
    (hm : lbm < 60) (hh : lbh < 24) (hv : 900 ≤ 60 * lbh + lbm)
    (hd1 : 10800 ≤ pySeconds ((de : ℤ) - ds)) (hd2 : pySeconds ((de : ℤ) - ds) ≤ 75600)
    (hok : breakTimingsFull 8 1 lbh lbm = Except.ok l) :
    0 ≤ (minutesWorkedFull 1 ds de l).1 ∧ 0 ≤ (minutesWorkedFull 1 ds de l).2 := by
  have hl : l = (breakSim 8 1 (List.range 24) false (24 - ((lbh : ℤ) + 1)) 0).map
      (fun h => 60 * h + lbm) := by
    unfold breakTimingsFull at hok
    split at hok
    · exact absurd hok (by simp)
    · exact (Except.ok.inj hok).symm
  have h15 : 15 ≤ lbh := by omega
  have hlen : l.length ≤ 3 := by
    rw [hl, List.length_map]
    interval_cases lbh <;> decide
  have hc1 : ((l.filter fun b => !noSkip b && inDayHalfOpen 1 ds de b).length : ℚ) ≤ 3 := by
    exact_mod_cast le_trans (List.length_filter_le _ l) hlen
  have hc2 : ((l.filter fun b => !noSkip b && !inDayHalfOpen 1 ds de b).length : ℚ) ≤ 3 := by
    exact_mod_cast le_trans (List.length_filter_le _ l) hlen
  have hq1 : (180 : ℚ) ≤ dayLength ds de := by
    rw [dayLength, le_div_iff₀ (by norm_num : (0 : ℚ) < 60)]
    have : (10800 : ℚ) ≤ ((pySeconds ((de : ℤ) - ds)) : ℚ) := by exact_mod_cast hd1
    linarith
  have hq2 : dayLength ds de ≤ 1260 := by
    rw [dayLength, div_le_iff₀ (by norm_num : (0 : ℚ) < 60)]
    have : ((pySeconds ((de : ℤ) - ds)) : ℚ) ≤ (75600 : ℚ) := by exact_mod_cast hd2
    linarith
  rw [minutesWorkedFull, applyBreaks_spec]
  constructor
  · simp only [preFull]
    push_cast
    linarith
  · simp only [preFull]
    push_cast
    linarith

/-- C9 (witness): the amended nonnegativity at the scenario window
07:00-23:00 with carried break time 20:00. -/
theorem c9_witness :
    0 ≤ (minutesWorkedFull 1 25200 82800 [300, 840, 1380]).1
    ∧ 0 ≤ (minutesWorkedFull 1 25200 82800 [300, 840, 1380]).2 :=
  c9_full_day_nonneg 20 0 25200 82800 [300, 840, 1380] (by decide) (by decide)
    (by decide) (by decide) (by decide) (by decide)

/-- C10 (counterexample).  The claim says split-and-sum equals whole-shift
pay whenever the carried time-of-last-break matches the single-pass value.
Shift 2038-01-01T10:00:00 to 2038-01-03T10:00:00 split at
2038-01-02T18:00:00: the single-pass iterator carries `"1800"` into the
split day and the split point's `"%H%M"` is also `(18, 0)`, yet the two
sub-shifts pay 36900 + 20100 = 57000 while the whole shift pays 55800 —
the second sub-shift's SHIFT_START segment restarts the break schedule. -/
theorem c10_counterexample :
    tolbIntoDay scenarioRate 8 1 ⟨2038, 1, 1, 36000⟩ ⟨2038, 1, 3, 36000⟩ 1 =
      Except.ok (18, 0)
    ∧ hmOfSec 64800 = (18, 0)
    ∧ calculate_total_pay scenarioRate 8 1 ⟨2038, 1, 1, 36000⟩ ⟨2038, 1, 2, 64800⟩ =
        Except.ok 36900
    ∧ calculate_total_pay scenarioRate 8 1 ⟨2038, 1, 2, 64800⟩ ⟨2038, 1, 3, 36000⟩ =
        Except.ok 20100
    ∧ calculate_total_pay scenarioRate 8 1 ⟨2038, 1, 1, 36000⟩ ⟨2038, 1, 3, 36000⟩ =
        Except.ok 55800
    ∧ (36900 + 20100 : ℤ) ≠ 55800 := by
  refine ⟨by with_unfolding_all rfl, by decide, by with_unfolding_all rfl,
    by with_unfolding_all rfl, by with_unfolding_all rfl, by decide⟩

/-- C10 (amended): what splitting does preserve is the pre-subtraction
minute accounting of the split day: for any split point inside a day with a
well-formed window, the SHIFT_END-up-to-the-split and
SHIFT_START-from-the-split segments together count exactly the FULL day's
pre-subtraction day and night minutes.  The pay itself is not preserved
(see the counterexample) because the break schedule restarts. -/
theorem c10_split_day_minutes (ds de mSec : ℕ)
    (h1 : ds ≤ de) (h2 : de < 86400) (h3 : mSec < 86400) :
    (preSE ds de mSec).1 + (preSS ds de mSec).1 = (preFull ds de).1
    ∧ (preSE ds de mSec).2 + (preSS ds de mSec).2 = (preFull ds de).2 := by
  have hw : pySeconds ((de : ℤ) - ds) = (de : ℤ) - ds :=
    pySeconds_of_lt (by omega) (by omega)
  have hday : preSEDay ds de mSec + preSSDay ds de mSec = dayLength ds de := by
    unfold preSEDay preSSDay
    by_cases hm1 : mSec < ds
    · simp only [if_pos hm1]
      ring
    · by_cases hm2 : mSec < de
      · simp only [if_neg hm1, if_pos hm2]
        have e1 : pySeconds ((mSec : ℤ) - ds) = (mSec : ℤ) - ds :=
          pySeconds_of_lt (by omega) (by omega)
        have e2 : pySeconds ((de : ℤ) - mSec) = (de : ℤ) - mSec :=
          pySeconds_of_lt (by omega) (by omega)
        rw [e1, e2, dayLength, hw]
        push_cast
        ring
      · simp only [if_neg hm1, if_neg hm2]
        ring
  have hAB : (((mSec / 3600 : ℕ) : ℚ) * 60 + ((mSec % 3600 / 60 : ℕ) : ℚ)
      + ((mSec % 60 : ℕ) : ℚ) / 60)
      + (((24 : ℚ) - ((mSec / 3600 : ℕ) : ℚ)) * 60 - ((mSec % 3600 / 60 : ℕ) : ℚ)
      - ((mSec % 60 : ℕ) : ℚ) / 60) = 24 * 60 := by
    ring
  constructor
  · simp only [preSE, preSS, preFull]
    exact hday
  · simp only [preSE, preSS, preFull]
    linarith [hday, hAB]

/-- C10 (witness): the split-day preservation at the counterexample's
window and split point 18:00:00. -/
theorem c10_witness :
    (preSE 25200 82800 64800).1 + (preSS 25200 82800 64800).1 = (preFull 25200 82800).1
    ∧ (preSE 25200 82800 64800).2 + (preSS 25200 82800 64800).2 = (preFull 25200 82800).2 :=
  c10_split_day_minutes 25200 82800 64800 (by norm_num) (by norm_num) (by norm_num)

end RobotSalary
